import Mathlib

/-!
Verification of the CVAT 3D canvas interaction engine (cvat-canvas3d) and the
2D canvas model, as a shallow embedding in Lean 4.

Sources embedded:
* cvat-canvas3d/src/typescript/canvas3dView.ts  (gesture state machine,
  translate / rotate / resize actions, point-cloud loading, event emission)
* cvat-canvas3d/src/typescript/consts.ts        (numeric constants)
* cvat-canvas/src/typescript/canvasModel.ts     (2D model: activate)

Coordinates, scales and screen positions are modelled as rationals (the
source uses JS doubles; every claim below is about exact sign / equality /
ordering behaviour that is float-independent at the chosen inputs).
Rotation angles are recorded in units of pi radians, so the source's
`Math.PI / CONST.ROTATION_SPEED` step is the rational 1 / ROTATION_SPEED.
THREE.js library calls (raycasts, localToWorld transforms) enter the
embedding as explicit inputs: a raycast result is the list of intersection
points it returns, a transform is a function argument.
-/

namespace Cvat3d

/-- A coordinate axis of the world / local frame. -/
inductive Axis where
  | x
  | y
  | z
deriving DecidableEq, Repr

/-- A 2D vector (screen or normalized-device coordinates), THREE.Vector2. -/
structure Vec2 where
  x : ℚ
  y : ℚ
deriving DecidableEq, Repr

/-- A 3D vector, THREE.Vector3. -/
structure Vec3 where
  x : ℚ
  y : ℚ
  z : ℚ
deriving DecidableEq, Repr

def Vec3.zero : Vec3 := ⟨0, 0, 0⟩

def Vec3.one : Vec3 := ⟨1, 1, 1⟩

/-- Component of a vector along an axis. -/
def Vec3.comp (a : Axis) (v : Vec3) : ℚ :=
  match a with
  | Axis.x => v.x
  | Axis.y => v.y
  | Axis.z => v.z

/-- Add an angle to the Euler component of the given axis. -/
def Vec3.addAxis (a : Axis) (angle : ℚ) (v : Vec3) : Vec3 :=
  match a with
  | Axis.x => ⟨v.x + angle, v.y, v.z⟩
  | Axis.y => ⟨v.x, v.y + angle, v.z⟩
  | Axis.z => ⟨v.x, v.y, v.z + angle⟩

/-- The three orthographic views ('top' | 'side' | 'front' in the source). -/
inductive OrthoView where
  | top
  | side
  | front
deriving DecidableEq, Repr

/-- ROTATION_SPEED from consts.ts. -/
def ROTATION_SPEED : ℚ := 80

/-- Angular step of the rotate gesture in units of pi radians: the source
computes `rotationSpeed = Math.PI / CONST.ROTATION_SPEED`. -/
def rotationStepPi : ℚ := 1 / ROTATION_SPEED

/-- One scene-graph mesh (THREE.Mesh).  `rotation` is the Euler-angle readback
(THREE `.rotation`); `rotLog` is the embedding's record of the local-axis
rotations applied by `Object3D.rotateX/rotateY/rotateZ` calls during the
session (the gesture code only ever applies repeated rotations about a single
axis, for which the XYZ-order Euler readback is additive on that axis).
`childHelperScale` is the common scale of the non-edge helper children
(resize / rotation handles) set by setSelectedChildScale. -/
structure Mesh where
  position : Vec3 := Vec3.zero
  scale : Vec3 := Vec3.one
  rotation : Vec3 := Vec3.zero
  rotLog : List (Axis × ℚ) := []
  childHelperScale : Vec3 := Vec3.one
deriving DecidableEq, Repr

/-- Rotate a mesh about one of its local axes (THREE Object3D.rotateX/Y/Z). -/
def Mesh.rotateAxis (a : Axis) (angle : ℚ) (m : Mesh) : Mesh :=
  { m with
    rotLog := m.rotLog ++ [(a, angle)],
    rotation := m.rotation.addAxis a angle }

/-- Flags stored on the perspective mesh's `userData` (the object state). -/
structure UserData where
  lock : Bool := false
  hidden : Bool := false
deriving DecidableEq, Repr

/-- The selected cuboid: four parallel mesh instances, one per view
(CuboidModel of cuboid.ts; the class itself is not among the given sources).
`name` is the stringified clientID assigned to the meshes (kept as an
integer here).  `refTop` / `refSide` / `refFront` are modelled from the spec:
the per-view reference-plane coordinates returned by
`getReferenceCoordinates`, used by the camera synchronisation logic. -/
structure CuboidMeshes where
  perspective : Mesh := {}
  top : Mesh := {}
  side : Mesh := {}
  front : Mesh := {}
  name : Int := 0
  userData : UserData := {}
  refTop : Vec3 := Vec3.zero
  refSide : Vec3 := Vec3.zero
  refFront : Vec3 := Vec3.zero
deriving DecidableEq, Repr

/-- The mesh of a cuboid shown in a given orthographic view. -/
def CuboidMeshes.view (c : CuboidMeshes) (v : OrthoView) : Mesh :=
  match v with
  | OrthoView.top => c.top
  | OrthoView.side => c.side
  | OrthoView.front => c.front

/-- Modelled from the spec: CuboidModel.setScale (cuboid.ts is not among the
given sources).  The four parallel mesh instances are geometrically
identical, so setting the cuboid scale applies the same scale triple to all
four meshes. -/
def CuboidMeshes.setScale (x y z : ℚ) (c : CuboidMeshes) : CuboidMeshes :=
  { c with
    perspective := { c.perspective with scale := ⟨x, y, z⟩ },
    top := { c.top with scale := ⟨x, y, z⟩ },
    side := { c.side with scale := ⟨x, y, z⟩ },
    front := { c.front with scale := ⟨x, y, z⟩ } }

/-- moveObject of canvas3dView.ts: copies the given coordinates into the
positions of all four meshes of the selected cuboid. -/
def moveObject (coordinates : Vec3) (c : CuboidMeshes) : CuboidMeshes :=
  { c with
    perspective := { c.perspective with position := coordinates },
    top := { c.top with position := coordinates },
    side := { c.side with position := coordinates },
    front := { c.front with position := coordinates } }

/-- TranslationAction part of the transient action record. -/
structure TranslationAction where
  status : Bool := false
  helper : Option Vec2 := none
  coordinates : Option Vec3 := none
deriving DecidableEq, Repr

/-- RotationAction part of the transient action record. -/
structure RotationAction where
  status : Bool := false
  helper : Option Vec2 := none
  screenInit : Vec2 := ⟨0, 0⟩
  screenMove : Vec2 := ⟨0, 0⟩
deriving DecidableEq, Repr

/-- ResizeAction part of the transient action record. -/
structure ResizeAction where
  status : Bool := false
  helper : Option Vec2 := none
  initScales : Vec3 := Vec3.one
  memScales : Vec3 := Vec3.one
  resizeVector : Vec3 := Vec3.zero
deriving DecidableEq, Repr

/-- The transient gesture record `this.action` of Canvas3dViewImpl. -/
structure ActionState where
  scan : Option OrthoView := none
  detected : Bool := false
  initialMouseVector : Vec2 := ⟨0, 0⟩
  translation : TranslationAction := {}
  rotation : RotationAction := {}
  resize : ResizeAction := {}
deriving DecidableEq, Repr

/-- An orthographic view's camera.  `rotLog` records local-axis rotations
(THREE rotateZ on the camera); `attached` records whether the camera is
currently parented to a mesh of the selected cuboid (THREE Object3D.attach). -/
structure CameraState where
  position : Vec3 := Vec3.zero
  rotLog : List (Axis × ℚ) := []
  attached : Bool := false
deriving DecidableEq, Repr

/-- A reference plane of an orthographic view (topPlane / sidePlane /
frontPlane meshes, named via the Planes enum). -/
structure PlaneState where
  position : Vec3 := Vec3.zero
  rotLog : List (Axis × ℚ) := []
deriving DecidableEq, Repr

/-- An annotated object state as held in model.data.objects. -/
structure ObjectState where
  clientID : Int
  lock : Bool := false
  hidden : Bool := false
  points : List ℚ := []
deriving DecidableEq, Repr

/-- The state of Canvas3dViewImpl relevant to the gesture machinery: the
action record, the selected cuboid (model.data.selected; none when no object
is selected), the object list, the per-view raycaster mouse vectors, the
enabled flags of the three orthographic orbit controls, the orthographic
cameras and the three reference planes. -/
structure S3D where
  action : ActionState := {}
  selected : Option CuboidMeshes := none
  objects : List ObjectState := []
  topMouse : Vec2 := ⟨0, 0⟩
  sideMouse : Vec2 := ⟨0, 0⟩
  frontMouse : Vec2 := ⟨0, 0⟩
  topControlsEnabled : Bool := false
  sideControlsEnabled : Bool := false
  frontControlsEnabled : Bool := false
  topCamera : CameraState := {}
  sideCamera : CameraState := {}
  frontCamera : CameraState := {}
  topPlane : PlaneState := {}
  sidePlane : PlaneState := {}
  frontPlane : PlaneState := {}
deriving DecidableEq, Repr

/-- The raycaster mouse vector of an orthographic view. -/
def S3D.mouseOf (s : S3D) : OrthoView → Vec2
  | OrthoView.top => s.topMouse
  | OrthoView.side => s.sideMouse
  | OrthoView.front => s.frontMouse

/-- Replace the raycaster mouse vector of an orthographic view. -/
def S3D.setMouse (s : S3D) (v : OrthoView) (mv : Vec2) : S3D :=
  match v with
  | OrthoView.top => { s with topMouse := mv }
  | OrthoView.side => { s with sideMouse := mv }
  | OrthoView.front => { s with frontMouse := mv }

/-- The camera of an orthographic view. -/
def S3D.cameraOf (s : S3D) : OrthoView → CameraState
  | OrthoView.top => s.topCamera
  | OrthoView.side => s.sideCamera
  | OrthoView.front => s.frontCamera

/-- The scale triple of the selected cuboid's top-view mesh, when an object
is selected (projection used by theorem statements). -/
def S3D.selectedTopScale (s : S3D) : Option Vec3 :=
  Option.map (fun c => c.top.scale) s.selected

/-- Decidable check that a present scale triple is componentwise
nonnegative. -/
def scaleNonneg : Option Vec3 → Bool
  | none => false
  | some v => decide (0 ≤ v.x) && decide (0 ≤ v.y) && decide (0 ≤ v.z)

/-- Decidable check that a present scale triple grew strictly beyond 1 on
width and height while keeping the given depth. -/
def scaleGrewXY (o : Option Vec3) (oldZ : ℚ) : Bool :=
  match o with
  | none => false
  | some v => decide (1 < v.x) && decide (1 < v.y) && decide (v.z = oldZ)

/-- startAction of canvas3dView.ts (the 'mousedown' handler of an
orthographic canvas): recomputes the view's NDC mouse vector from the client
event coordinates and the canvas rectangle, records the initial rotation
screen coordinates, and arms `action.scan` only when a selected, unlocked,
non-hidden object exists. -/
def startAction (view : OrthoView) (clientX clientY rectLeft rectTop
    width height : ℚ) (s : S3D) : S3D :=
  let mv : Vec2 :=
    ⟨((clientX - rectLeft) / width) * 2 - 1,
     -(((clientY - rectTop) / height)) * 2 + 1⟩
  let s := s.setMouse view mv
  let s := { s with
    action := { s.action with
      rotation := { s.action.rotation with
        screenInit := ⟨clientX, clientY⟩,
        screenMove := ⟨clientX, clientY⟩ } } }
  match s.selected with
  | some sel =>
      if sel.userData.lock = false ∧ sel.userData.hidden = false then
        { s with action := { s.action with scan := some view } }
      else s
  | none => s

/-- renderTranslateAction of canvas3dView.ts: `intersects` is the raycast
result against the initiating view's reference plane; a hit stores the
intersection point in the action record and moves the object there. -/
def renderTranslateAction (intersects : List Vec3) (s : S3D) : S3D :=
  match intersects with
  | [] => s
  | point :: _ =>
    let s := { s with
      action := { s.action with
        translation := { s.action.translation with coordinates := some point } } }
    match s.selected with
    | some sel => { s with selected := some (moveObject point sel) }
    | none => s

/-- translateReferencePlane of canvas3dView.ts: positions all three
reference planes at the given coordinates. -/
def translateReferencePlane (coordinates : Vec3) (s : S3D) : S3D :=
  { s with
    topPlane := { s.topPlane with position := coordinates },
    sidePlane := { s.sidePlane with position := coordinates },
    frontPlane := { s.frontPlane with position := coordinates } }

/-- adjustPerspectiveCameras of canvas3dView.ts.  The source converts each
view's reference coordinates (getReferenceCoordinates, from the absent
cuboid.ts) to spherical coordinates and sets the camera position from them;
a Spherical.setFromVector3 / position.setFromSpherical roundtrip reproduces
the vector, so the net effect is to place each orthographic camera at the
cuboid's reference coordinates for that view. -/
def adjustPerspectiveCameras (s : S3D) : S3D :=
  match s.selected with
  | none => s
  | some sel =>
    { s with
      topCamera := { s.topCamera with position := sel.refTop },
      sideCamera := { s.sideCamera with position := sel.refSide },
      frontCamera := { s.frontCamera with position := sel.refFront } }

/-- Componentwise update with null-means-keep semantics
(setSelectedChildScale passes null for the axis it leaves alone). -/
def setChildScaleComponentwise (x? y? z? : Option ℚ) (v : Vec3) : Vec3 :=
  ⟨x?.getD v.x, y?.getD v.y, z?.getD v.z⟩

/-- setSelectedChildScale of canvas3dView.ts: rescales the non-edge helper
children of the selected cuboid's orthographic meshes.  The source iterates
the view list [TOP, SIDE, SIDE] (the front view is absent from the list in
the source), so only the top and side meshes' helpers are updated. -/
def setSelectedChildScale (x? y? z? : Option ℚ) (c : CuboidMeshes) : CuboidMeshes :=
  let upd := fun (m : Mesh) =>
    { m with childHelperScale := setChildScaleComponentwise x? y? z? m.childHelperScale }
  let c := { c with top := upd c.top }
  let c := { c with side := upd c.side }
  { c with side := upd c.side }

/-- renderResizeAction of canvas3dView.ts.  `intersects` is the raycast
result against the initiating view's reference plane; `localToWorld` is that
plane's local-to-world transform, applied to the accumulated resize offset
vector before the object is re-centred.  The per-view switch computes the
two new scale components from the ratio of the current NDC pointer position
to the position stored in `action.resize.helper` at gesture initiation,
replaces strictly negative results by 0.2, applies the scale to the cuboid,
inversely rescales the helper children, accumulates the anchor-correction
offset in `resizeVector`, and records the new scales in `memScales`.
The helper is only read once resize.status is set (which also sets the
helper), so the none branches are unreachable in the source. -/
def renderResizeAction (view : OrthoView) (intersects : List Vec3)
    (localToWorld : Vec3 → Vec3) (s : S3D) : S3D :=
  if intersects.length = 0 then s else
  match s.selected, s.action.resize.helper with
  | some sel, some initPos =>
    let scaleInit := s.action.resize.initScales
    let scaleMem := s.action.resize.memScales
    let currentPos := s.mouseOf view
    let rv := s.action.resize.resizeVector
    let step : CuboidMeshes × Vec3 × Vec3 :=
      match view with
      | OrthoView.top =>
        let y0 := scaleInit.x * (currentPos.x / initPos.x)
        let x0 := scaleInit.y * (currentPos.y / initPos.y)
        let x := if x0 < 0 then (1 : ℚ) / 5 else x0
        let y := if y0 < 0 then (1 : ℚ) / 5 else y0
        let sel1 := sel.setScale y x sel.top.scale.z
        let sel2 := setSelectedChildScale (some (1 / y)) (some (1 / x)) none sel1
        let differenceX := y / 2 - scaleMem.x / 2
        let differenceY := x / 2 - scaleMem.y / 2
        let differenceOpX :=
          (0 < currentPos.x ∧ currentPos.y < 0) ∨ (0 < currentPos.x ∧ 0 < currentPos.y)
        let differenceOpY :=
          (currentPos.x < 0 ∧ currentPos.y < 0) ∨ (currentPos.x < 0 ∧ 0 < currentPos.y)
        let rvx := if differenceOpX then rv.x + differenceX else rv.x - differenceX
        let rvy := if differenceOpY then rv.y + differenceY else rv.y - differenceY
        (sel2, ⟨y, x, scaleMem.z⟩, ⟨rvx, rvy, rv.z⟩)
      | OrthoView.side =>
        let x0 := scaleInit.x * (currentPos.x / initPos.x)
        let z0 := scaleInit.z * (currentPos.y / initPos.y)
        let x := if x0 < 0 then (1 : ℚ) / 5 else x0
        let z := if z0 < 0 then (1 : ℚ) / 5 else z0
        let sel1 := sel.setScale x sel.top.scale.y z
        let sel2 := setSelectedChildScale (some (1 / x)) none (some (1 / z)) sel1
        let differenceX := x / 2 - scaleMem.x / 2
        let differenceY := z / 2 - scaleMem.z / 2
        let rvp : Vec2 :=
          if 0 < currentPos.x ∧ currentPos.y < 0 then
            ⟨rv.x + differenceX, rv.y - differenceY⟩
          else if 0 < currentPos.x ∧ 0 < currentPos.y then
            ⟨rv.x + differenceX, rv.y + differenceY⟩
          else if currentPos.x < 0 ∧ currentPos.y < 0 then
            ⟨rv.x - differenceX, rv.y - differenceY⟩
          else if currentPos.x < 0 ∧ 0 < currentPos.y then
            ⟨rv.x - differenceX, rv.y + differenceY⟩
          else ⟨rv.x, rv.y⟩
        (sel2, ⟨x, scaleMem.y, z⟩, ⟨rvp.x, rvp.y, rv.z⟩)
      | OrthoView.front =>
        let y0 := scaleInit.y * (currentPos.x / initPos.x)
        let z0 := scaleInit.z * (currentPos.y / initPos.y)
        let y := if y0 < 0 then (1 : ℚ) / 5 else y0
        let z := if z0 < 0 then (1 : ℚ) / 5 else z0
        let sel1 := sel.setScale sel.top.scale.x y z
        let sel2 := setSelectedChildScale none (some (1 / y)) (some (1 / z)) sel1
        let differenceX := z / 2 - scaleMem.y / 2
        let differenceY := y / 2 - scaleMem.z / 2
        let rvp : Vec2 :=
          if 0 < currentPos.x ∧ currentPos.y < 0 then
            ⟨rv.x + differenceX, rv.y + differenceY⟩
          else if 0 < currentPos.x ∧ 0 < currentPos.y then
            ⟨rv.x - differenceX, rv.y + differenceY⟩
          else if currentPos.x < 0 ∧ currentPos.y < 0 then
            ⟨rv.x + differenceX, rv.y - differenceY⟩
          else if currentPos.x < 0 ∧ 0 < currentPos.y then
            ⟨rv.x - differenceX, rv.y - differenceY⟩
          else ⟨rv.x, rv.y⟩
        (sel2, ⟨scaleMem.x, z, y⟩, ⟨rvp.x, rvp.y, rv.z⟩)
    let sel' := step.1
    let memScales' := step.2.1
    let resizeVector' := step.2.2
    let coordinates := localToWorld resizeVector'
    let sel'' := moveObject coordinates sel'
    let s := { s with
      selected := some sel'',
      action := { s.action with
        resize := { s.action.resize with
          memScales := memScales', resizeVector := resizeVector' } } }
    adjustPerspectiveCameras s
  | _, _ => s

/-- isLeft of canvas3dView.ts: the signed cross-product test deciding
whether point c lies to the left of the line from a through b. -/
def isLeft (a b c : Vec2) : Bool :=
  decide ((b.x - a.x) * (c.y - a.y) - (b.y - a.y) * (c.x - a.x) > 0)

/-- The world axis about which a view's rotate gesture turns the cuboid
(rotateCube: top uses rotateZ, side rotateY, front rotateX).  It is also the
scale axis a view's resize leaves unchanged. -/
def viewAxis : OrthoView → Axis
  | OrthoView.top => Axis.z
  | OrthoView.side => Axis.y
  | OrthoView.front => Axis.x

/-- Rotate the four meshes of a cuboid by `direction` about the initiating
view's axis (the mesh part of rotateCube). -/
def rotateCubeMeshes (c : CuboidMeshes) (direction : ℚ) (view : OrthoView) :
    CuboidMeshes :=
  let a := viewAxis view
  { c with
    perspective := c.perspective.rotateAxis a direction,
    top := c.top.rotateAxis a direction,
    side := c.side.rotateAxis a direction,
    front := c.front.rotateAxis a direction }

/-- Rotate a camera about its local z axis (camera.rotateZ). -/
def CameraState.rotateLocalZ (angle : ℚ) (cam : CameraState) : CameraState :=
  { cam with rotLog := cam.rotLog ++ [(Axis.z, angle)] }

/-- rotateCamera of canvas3dView.ts: rotates the initiating view's camera
about the camera's local z axis (which, for an orthographic camera, is its
viewing axis). -/
def rotateCamera (direction : ℚ) (view : OrthoView) (s : S3D) : S3D :=
  match view with
  | OrthoView.top => { s with topCamera := s.topCamera.rotateLocalZ direction }
  | OrthoView.front => { s with frontCamera := s.frontCamera.rotateLocalZ direction }
  | OrthoView.side => { s with sideCamera := s.sideCamera.rotateLocalZ direction }

/-- Rotate a plane about one of its local axes. -/
def PlaneState.rotateAxis (a : Axis) (angle : ℚ) (p : PlaneState) : PlaneState :=
  { p with rotLog := p.rotLog ++ [(a, angle)] }

/-- rotateCube of canvas3dView.ts: rotates all four meshes of the selected
cuboid about the view axis and then rotates that view's camera. -/
def rotateCube (direction : ℚ) (view : OrthoView) (s : S3D) : S3D :=
  match s.selected with
  | none => s
  | some sel =>
    rotateCamera direction view
      { s with selected := some (rotateCubeMeshes sel direction view) }

/-- rotatePlane of canvas3dView.ts, non-null direction case (the case used
during a rotate gesture: the null case rebuilds the planes on commit and is
not part of the per-frame gesture path embedded here). -/
def rotatePlane (direction : ℚ) (view : OrthoView) (s : S3D) : S3D :=
  match view with
  | OrthoView.top =>
    { s with
      topPlane := s.topPlane.rotateAxis Axis.z direction,
      sidePlane := s.sidePlane.rotateAxis Axis.y direction,
      frontPlane := s.frontPlane.rotateAxis Axis.x (-direction) }
  | OrthoView.side =>
    { s with
      topPlane := s.topPlane.rotateAxis Axis.y direction,
      sidePlane := s.sidePlane.rotateAxis Axis.z direction,
      frontPlane := s.frontPlane.rotateAxis Axis.y direction }
  | OrthoView.front =>
    { s with
      topPlane := s.topPlane.rotateAxis Axis.x direction,
      sidePlane := s.sidePlane.rotateAxis Axis.x (-direction),
      frontPlane := s.frontPlane.rotateAxis Axis.z direction }

/-- renderRotateAction of canvas3dView.ts: a no-op while the pointer has not
moved from its initial screen position; otherwise chooses the rotation
direction by the isLeft cross-product test against the canvas centre and
applies the fixed angular step to the cuboid, the view's camera and the
reference planes, then records the handled screen position in the helper. -/
def renderRotateAction (view : OrthoView) (canvasCentre : Vec2) (s : S3D) : S3D :=
  if s.action.rotation.screenInit.x = s.action.rotation.screenMove.x
      ∧ s.action.rotation.screenInit.y = s.action.rotation.screenMove.y then s
  else
    let direction :=
      if isLeft canvasCentre s.action.rotation.screenInit s.action.rotation.screenMove
      then -rotationStepPi else rotationStepPi
    let s' := rotateCube direction view s
    let s' := rotatePlane direction view s'
    { s' with
      action := { s'.action with
        rotation := { s'.action.rotation with
          helper := some ⟨s'.action.rotation.screenMove.x,
                          s'.action.rotation.screenMove.y⟩ } } }

/-- The signed direction chosen by renderRotateAction: the isLeft test
against the canvas centre picks minus the angular step, its failure picks
plus the angular step (in units of pi radians). -/
def rotDir (canvasCentre : Vec2) (s : S3D) : ℚ :=
  if isLeft canvasCentre s.action.rotation.screenInit s.action.rotation.screenMove
  then -rotationStepPi else rotationStepPi

/-- attachCamera of canvas3dView.ts: parents the two other orthographic
cameras to the corresponding meshes of the selected cuboid (THREE
Object3D.attach); the embedding records the parenting bit. -/
def attachCamera (view : OrthoView) (s : S3D) : S3D :=
  match view with
  | OrthoView.top =>
    { s with
      sideCamera := { s.sideCamera with attached := true },
      frontCamera := { s.frontCamera with attached := true } }
  | OrthoView.side =>
    { s with
      frontCamera := { s.frontCamera with attached := true },
      topCamera := { s.topCamera with attached := true } }
  | OrthoView.front =>
    { s with
      sideCamera := { s.sideCamera with attached := true },
      topCamera := { s.topCamera with attached := true } }

/-- detachCamera of canvas3dView.ts for a committed gesture view.  The
source recomputes each affected camera's position from the spherical
conversion of the cuboid's reference coordinates and reapplies the camera's
world orientation directly, removing the parent relationship.  The embedding
clears the parenting bit and repositions the camera at the reference
coordinates (a spherical roundtrip of a vector reproduces the vector); the
preserved world orientation is represented by leaving the camera's recorded
rotations unchanged. -/
def detachCamera (view : OrthoView) (sel : CuboidMeshes) (s : S3D) : S3D :=
  match view with
  | OrthoView.top =>
    { s with
      sideCamera := { s.sideCamera with attached := false, position := sel.refSide },
      frontCamera := { s.frontCamera with attached := false, position := sel.refFront } }
  | OrthoView.side =>
    { s with
      frontCamera := { s.frontCamera with attached := false, position := sel.refFront },
      topCamera := { s.topCamera with attached := false, position := sel.refTop } }
  | OrthoView.front =>
    { s with
      sideCamera := { s.sideCamera with attached := false, position := sel.refSide },
      topCamera := { s.topCamera with attached := false, position := sel.refTop } }

/-- initiateAction of canvas3dView.ts: the first pointer-move after a
pointer-down raycasts, in priority order, the selected object's resize
helpers, its rotation helper, and its body mesh; the first nonempty
intersection list decides the gesture sub-mode, and every detecting branch
disables the orbit controls of all three orthographic views.  The three
lists are the raycast results, in that order.  A selected object is present
whenever this runs (action.scan is only armed with a selection). -/
def initiateAction (view : OrthoView)
    (intersectsHelperResize intersectsHelperRotation intersectsBox : List Vec3)
    (s : S3D) : S3D :=
  match s.selected with
  | none => s
  | some sel =>
    let mouseVector := s.mouseOf view
    if intersectsHelperResize.length ≠ 0 then
      { s with
        action := { s.action with
          detected := true,
          resize := { s.action.resize with
            helper := some mouseVector,
            status := true,
            initScales := (sel.view view).scale,
            memScales := (sel.view view).scale,
            resizeVector := Vec3.zero } },
        topControlsEnabled := false,
        sideControlsEnabled := false,
        frontControlsEnabled := false }
    else if intersectsHelperRotation.length ≠ 0 then
      attachCamera view
        { s with
          action := { s.action with
            detected := true,
            rotation := { s.action.rotation with
              helper := some mouseVector, status := true } },
          topControlsEnabled := false,
          sideControlsEnabled := false,
          frontControlsEnabled := false }
    else if intersectsBox.length ≠ 0 then
      { s with
        action := { s.action with
          detected := true,
          translation := { s.action.translation with
            helper := some mouseVector, status := true } },
        topControlsEnabled := false,
        sideControlsEnabled := false,
        frontControlsEnabled := false }
    else s

/-- The 16-element point array built by the 'mouseup' commit handler
(resetActions): position, rotation and scale of the authoritative view's
mesh followed by seven zero reserved slots. -/
def editedPointsOf (m : Mesh) : List ℚ :=
  [m.position.x, m.position.y, m.position.z,
   m.rotation.x, m.rotation.y, m.rotation.z,
   m.scale.x, m.scale.y, m.scale.z,
   0, 0, 0, 0, 0, 0, 0]

/-- The 16-element point array built by the 'dblclick' draw-finish handler
from the preview cube's perspective mesh. -/
def drawnPointsOf (m : Mesh) : List ℚ :=
  [m.position.x, m.position.y, m.position.z,
   m.rotation.x, m.rotation.y, m.rotation.z,
   m.scale.x, m.scale.y, m.scale.z,
   0, 0, 0, 0, 0, 0, 0]

/-- An outbound canvas event of the 3D view relevant to the claims:
canvas.edited (with the matched object state, possibly absent, and the point
array), canvas.drawn (with the point array) and canvas.canceled. -/
inductive CanvasEvent where
  | edited (state : Option ObjectState) (points : List ℚ)
  | drawn (points : List ℚ)
  | canceled
deriving DecidableEq, Repr

/-- resetActions of canvas3dView.ts (the 'mouseup' handler): a complete
no-op when no sub-mode was detected; otherwise emits canvas.edited with the
16-element point array read from the initiating view's mesh, detaches the
cameras when the gesture was a rotation, readjusts the orthographic cameras,
re-centres the reference planes on the object and resets the action record.
The source reads selected[scan] unconditionally after the detected guard;
detection always arms both, so the fallthrough branch is unreachable. -/
def resetActions (s : S3D) : S3D × List CanvasEvent :=
  if s.action.detected = false then (s, [])
  else
    match s.action.scan, s.selected with
    | some scan, some sel =>
      let m := sel.view scan
      let points := editedPointsOf m
      let state := (s.objects.filter (fun o => o.clientID = sel.name)).head?
      let ev := CanvasEvent.edited state points
      let s := if s.action.rotation.status then detachCamera scan sel s else s
      let s := adjustPerspectiveCameras s
      let s := translateReferencePlane m.position s
      let s := { s with
        action := { s.action with
          scan := none,
          detected := false,
          translation := { status := false, helper := none, coordinates := none },
          rotation := { status := false, helper := none,
                        screenInit := ⟨0, 0⟩, screenMove := ⟨0, 0⟩ },
          resize := { s.action.resize with status := false, helper := none } } }
      (s, [ev])
    | _, _ => (s, [])

/-- The canvas mode of the 3D model.  Modelled from the spec: canvas3dModel.ts
is not among the given sources; the spec lists IDLE, DRAW and EDIT/INTERACT,
and the view additionally uses DRAG_CANVAS. -/
inductive Mode3d where
  | idle
  | draw
  | edit
  | dragCanvas
deriving DecidableEq, Repr

/-- The 'dblclick' draw-finish handler of canvas3dView.ts: outside DRAW mode
it only calls preventDefault; in DRAW mode it disables drawing, returns the
mode to IDLE, and emits canvas.drawn with the 16-element point array of the
preview cube's perspective mesh, followed by canvas.canceled. -/
def onDblClick (mode : Mode3d) (cube : CuboidMeshes) : Mode3d × List CanvasEvent :=
  if mode ≠ Mode3d.draw then (mode, [])
  else
    (Mode3d.idle,
     [CanvasEvent.drawn (drawnPointsOf cube.perspective), CanvasEvent.canceled])

/-- Modelled from the spec and THREE defaults: a freshly constructed
CuboidModel (the preview cube created by `new CuboidModel(...)`; cuboid.ts
is not among the given sources): four meshes with the library-default unit
scale, zero position and zero rotation. -/
def freshCuboid : CuboidMeshes := {}

/-- An observable step of the image/frame-change path of notify
(UpdateReasons.IMAGE_CHANGED) and of the asynchronous point-cloud decode:
creating the object URL, clearing all four views' scenes, starting the
asynchronous PCDLoader.load, revoking the object URL, dispatching the
canvas.setup event, and the completion of the decode (the addScene
callback). -/
inductive SceneEvent where
  | createObjectURL
  | clearScene
  | loadStart
  | revokeObjectURL
  | emitSetup
  | loadComplete
deriving DecidableEq, Repr

/-- The synchronous body of notify for UpdateReasons.IMAGE_CHANGED: nothing
happens without an image; with an image the handler creates the object URL,
clears the previous scene contents of all four views, starts the
asynchronous decode, revokes the URL and dispatches canvas.setup, in that
order, before the decode has completed. -/
def notifyImageChangedSync (hasImage : Bool) : List SceneEvent :=
  if hasImage then
    [SceneEvent.createObjectURL, SceneEvent.clearScene, SceneEvent.loadStart,
     SceneEvent.revokeObjectURL, SceneEvent.emitSetup]
  else []

/-- The full observable trace of a frame change whose decode succeeds: the
decode is the single suspension point, so its completion (the addScene
callback) runs strictly after the synchronous handler body. -/
def imageChangeTrace : List SceneEvent :=
  notifyImageChangedSync true ++ [SceneEvent.loadComplete]

end Cvat3d

namespace Cvat2d

/-- The Mode enum of cvat-canvas/src/typescript/canvasModel.ts. -/
inductive Mode where
  | idle
  | drag
  | resize
  | draw
  | edit
  | merge
  | split
  | group
  | dragCanvas
  | zoomCanvas
deriving DecidableEq, Repr

/-- Update reasons of canvasModel.ts relevant here. -/
inductive UpdateReason where
  | shapeActivated
  | objectsUpdated
deriving DecidableEq, Repr

/-- The errors thrown by canvasModel.ts methods ("Canvas is busy. ..."). -/
inductive CanvasError where
  | canvasBusy (mode : Mode)
deriving DecidableEq, Repr

/-- The ActiveElement record of canvasModel.ts. -/
structure ActiveElement where
  clientID : Option Int := none
  attributeID : Option Int := none
deriving DecidableEq, Repr

/-- The part of CanvasModelImpl's data that activate touches. -/
structure CanvasData where
  mode : Mode := Mode.idle
  activeElement : ActiveElement := {}
deriving DecidableEq, Repr

/-- activate of canvasModel.ts: throws when a gesture is in progress (mode
is not IDLE) and a non-null clientID is requested — before any mutation, so
the data is unchanged on error; otherwise replaces the active element and
notifies SHAPE_ACTIVATED once.  The result pairs the new data with the list
of notifications dispatched by the call. -/
def activate (clientID attributeID : Option Int) (d : CanvasData) :
    Except CanvasError (CanvasData × List UpdateReason) :=
  if d.mode ≠ Mode.idle ∧ clientID ≠ none then
    Except.error (CanvasError.canvasBusy d.mode)
  else
    Except.ok
      ({ d with activeElement := { clientID := clientID, attributeID := attributeID } },
       [UpdateReason.shapeActivated])

end Cvat2d

namespace Cvat3d

/-- A cuboid used by the concrete witness states. -/
def sampleCuboid : CuboidMeshes :=
  { name := 7,
    refTop := ⟨0, 0, 3⟩, refSide := ⟨0, 4, 0⟩, refFront := ⟨5, 0, 0⟩ }

/-- A state with a selected, unlocked, visible object and an armed top-view
scan, before any sub-mode detection. -/
def sampleScanState : S3D :=
  { selected := some sampleCuboid,
    objects := [{ clientID := 7 }],
    action := { scan := some OrthoView.top },
    topMouse := ⟨1/2, 1/2⟩ }

/-- A state in an in-progress top-view resize gesture: helper and scale
snapshots taken at detection, pointer currently at NDC (0, 1/2) so that the
horizontal ratio is exactly zero. -/
def resizeZeroState : S3D :=
  { selected := some sampleCuboid,
    objects := [{ clientID := 7 }],
    action :=
      { scan := some OrthoView.top,
        detected := true,
        resize :=
          { status := true,
            helper := some ⟨1/2, 1/2⟩,
            initScales := Vec3.one,
            memScales := Vec3.one,
            resizeVector := Vec3.zero } },
    topMouse := ⟨0, 1/2⟩ }

/-- A state in an in-progress top-view resize gesture with the pointer moved
outward on both axes (NDC (1, 3/4) against a helper of (1/2, 1/2)). -/
def resizeOutwardState : S3D :=
  { selected := some sampleCuboid,
    objects := [{ clientID := 7 }],
    action :=
      { scan := some OrthoView.top,
        detected := true,
        resize :=
          { status := true,
            helper := some ⟨1/2, 1/2⟩,
            initScales := Vec3.one,
            memScales := Vec3.one,
            resizeVector := Vec3.zero } },
    topMouse := ⟨1, 3/4⟩ }

/-- A state in an in-progress top-view rotate gesture whose pointer has
moved from its initial screen position. -/
def rotateMovedState : S3D :=
  { selected := some sampleCuboid,
    objects := [{ clientID := 7 }],
    action :=
      { scan := some OrthoView.top,
        detected := true,
        rotation :=
          { status := true,
            helper := some ⟨0, 0⟩,
            screenInit := ⟨100, 100⟩,
            screenMove := ⟨120, 90⟩ } } }

/-- A state with a detected top-view translate gesture, for the commit
witness. -/
def sampleDetectedState : S3D :=
  { selected := some sampleCuboid,
    objects := [{ clientID := 7 }],
    action :=
      { scan := some OrthoView.top,
        detected := true,
        translation := { status := true, helper := some ⟨0, 0⟩ } } }

/-- A state with a locked selected object for the no-gesture witness. -/
def lockedState : S3D :=
  { selected := some { sampleCuboid with userData := { lock := true } } }

theorem ite_floor_nonneg (v : ℚ) : 0 ≤ ite (v < 0) ((1 : ℚ) / 5) v := by
  by_cases h : v < 0
  · rw [if_pos h]; norm_num
  · rw [if_neg h]; exact le_of_not_lt h

theorem vec2_eq_iff (a b : Vec2) : a = b ↔ a.x = b.x ∧ a.y = b.y := by
  cases a; cases b; simp

/-- Claim C10: if pointer-up occurs while no gesture sub-mode has been
detected (the action record's detected flag is false), the pointer-up
handler resetActions is a complete no-op: no canvas.edited event is
emitted, no camera is detached or repositioned, no reference plane is
moved, and the whole state, including the action record, is unchanged. -/
theorem resetActions_noop_when_undetected (s : S3D)
    (h : s.action.detected = false) : resetActions s = (s, []) := by
  simp [resetActions, h]

theorem resetActions_noop_witness : resetActions sampleScanState = (sampleScanState, []) :=
  resetActions_noop_when_undetected sampleScanState rfl

/-- Claim C4, counterexample: in the observable trace of a frame change, the
canvas.setup notification is dispatched synchronously by the IMAGE_CHANGED
handler right after starting the asynchronous decode, hence strictly before
the decode completes — refuting the claim that setup is emitted only after
the point-cloud load completes. -/
theorem imageChange_setup_while_pending :
    ¬ (imageChangeTrace.indexOf SceneEvent.loadComplete
        < imageChangeTrace.indexOf SceneEvent.emitSetup) := by
  decide

/-- Claim C4, amended: on an image/frame change with an image present, the
previous scene contents of all four views are cleared before the
asynchronous decode starts, and the setup notification is emitted
synchronously after initiating the decode — while the decode is still
pending, not after its completion. -/
theorem imageChange_clear_then_setup_then_complete :
    imageChangeTrace.indexOf SceneEvent.clearScene
        < imageChangeTrace.indexOf SceneEvent.loadStart
    ∧ imageChangeTrace.indexOf SceneEvent.loadStart
        < imageChangeTrace.indexOf SceneEvent.emitSetup
    ∧ imageChangeTrace.indexOf SceneEvent.emitSetup
        < imageChangeTrace.indexOf SceneEvent.loadComplete
    ∧ notifyImageChangedSync false = [] := by
  decide

/-- Claim C5: activate with a non-null clientID while the mode is not IDLE
fails with the canvas-busy error — before any mutation, so the active
element is unchanged (the error result carries no new state); otherwise it
replaces the active element with the given ids and dispatches exactly one
SHAPE_ACTIVATED notification. -/
theorem activate_busy_or_updates (d : Cvat2d.CanvasData) (cid aid : Option Int) :
    (d.mode ≠ Cvat2d.Mode.idle → cid ≠ none →
      Cvat2d.activate cid aid d
        = Except.error (Cvat2d.CanvasError.canvasBusy d.mode))
    ∧ ((d.mode = Cvat2d.Mode.idle ∨ cid = none) →
      Cvat2d.activate cid aid d
        = Except.ok
            ({ d with activeElement := { clientID := cid, attributeID := aid } },
             [Cvat2d.UpdateReason.shapeActivated])) := by
  constructor
  · intro h1 h2
    simp [Cvat2d.activate, h1, h2]
  · intro h
    rcases h with h | h <;> simp [Cvat2d.activate, h]

theorem activate_witness :
    Cvat2d.activate (some 1) none { mode := Cvat2d.Mode.drag }
      = Except.error (Cvat2d.CanvasError.canvasBusy Cvat2d.Mode.drag) :=
  (activate_busy_or_updates { mode := Cvat2d.Mode.drag } (some 1) none).1
    (by simp) (by simp)

/-- Claim C3: a TRANSLATE step whose raycast against the initiating view's
reference plane yields an intersection point stores that point in the
action record and sets the positions of all four meshes of the selected
cuboid (perspective, top, side, front) to exactly that point. -/
theorem translate_moves_all_meshes (point : Vec3) (rest : List Vec3) (s : S3D)
    (sel : CuboidMeshes) (hsel : s.selected = some sel) :
    (renderTranslateAction (point :: rest) s).action.translation.coordinates = some point
    ∧ (renderTranslateAction (point :: rest) s).selected = some (moveObject point sel)
    ∧ (moveObject point sel).perspective.position = point
    ∧ (moveObject point sel).top.position = point
    ∧ (moveObject point sel).side.position = point
    ∧ (moveObject point sel).front.position = point := by
  refine ⟨?_, ?_, rfl, rfl, rfl, rfl⟩ <;> simp [renderTranslateAction, hsel]

theorem translate_witness :
    (renderTranslateAction [⟨1, 2, 3⟩] sampleScanState).action.translation.coordinates
      = some ⟨1, 2, 3⟩ :=
  (translate_moves_all_meshes ⟨1, 2, 3⟩ [] sampleScanState sampleCuboid rfl).1

/-- Claim C6: a pointer-down in an orthographic view leaves the action's
scan field unchanged (in particular null when it was null) when no object
is selected or the selected object is locked or hidden — startAction is a
total function, so no error is raised — and arms the scan with the
initiating view exactly when a selected, unlocked, non-hidden object
exists. -/
theorem startAction_gates_on_selection (view : OrthoView)
    (clientX clientY rectLeft rectTop width height : ℚ) (s : S3D) :
    (s.selected = none →
      (startAction view clientX clientY rectLeft rectTop width height s).action.scan
        = s.action.scan)
    ∧ (∀ sel, s.selected = some sel →
        (sel.userData.lock = true ∨ sel.userData.hidden = true) →
        (startAction view clientX clientY rectLeft rectTop width height s).action.scan
          = s.action.scan)
    ∧ (∀ sel, s.selected = some sel →
        sel.userData.lock = false → sel.userData.hidden = false →
        (startAction view clientX clientY rectLeft rectTop width height s).action.scan
          = some view) := by
  refine ⟨?_, ?_, ?_⟩
  · intro h
    cases view <;> simp [startAction, S3D.setMouse, h]
  · intro sel h hlh
    rcases hlh with h1 | h1 <;>
      cases view <;> simp [startAction, S3D.setMouse, h, h1]
  · intro sel h h1 h2
    cases view <;> simp [startAction, S3D.setMouse, h, h1, h2]

theorem startAction_witness :
    (startAction OrthoView.top 10 10 0 0 100 100 lockedState).action.scan
      = lockedState.action.scan :=
  (startAction_gates_on_selection OrthoView.top 10 10 0 0 100 100 lockedState).2.1
    { sampleCuboid with userData := { lock := true } } rfl (Or.inl rfl)

/-- Claim C2: at gesture initiation (no sub-mode status set yet), the first
nonempty raycast in the fixed priority order resize-helpers, rotation
helper, body mesh decides the sub-mode — a resize-helper hit yields RESIZE
whatever the later raycasts return, rotation beats the body mesh, the body
mesh alone yields TRANSLATE, and no hit leaves the state unchanged — and
every detecting branch disables the orbit controls of all three
orthographic views. -/
theorem initiateAction_priority_and_controls (view : OrthoView)
    (hR hRot hB : List Vec3) (s : S3D) (sel : CuboidMeshes)
    (hsel : s.selected = some sel)
    (ht : s.action.translation.status = false)
    (hr : s.action.resize.status = false)
    (hro : s.action.rotation.status = false) :
    (hR ≠ [] →
      (initiateAction view hR hRot hB s).action.resize.status = true
      ∧ (initiateAction view hR hRot hB s).action.rotation.status = false
      ∧ (initiateAction view hR hRot hB s).action.translation.status = false
      ∧ (initiateAction view hR hRot hB s).action.detected = true)
    ∧ (hR = [] → hRot ≠ [] →
      (initiateAction view hR hRot hB s).action.rotation.status = true
      ∧ (initiateAction view hR hRot hB s).action.resize.status = false
      ∧ (initiateAction view hR hRot hB s).action.translation.status = false
      ∧ (initiateAction view hR hRot hB s).action.detected = true)
    ∧ (hR = [] → hRot = [] → hB ≠ [] →
      (initiateAction view hR hRot hB s).action.translation.status = true
      ∧ (initiateAction view hR hRot hB s).action.resize.status = false
      ∧ (initiateAction view hR hRot hB s).action.rotation.status = false
      ∧ (initiateAction view hR hRot hB s).action.detected = true)
    ∧ (hR = [] → hRot = [] → hB = [] → initiateAction view hR hRot hB s = s)
    ∧ (hR ≠ [] ∨ hRot ≠ [] ∨ hB ≠ [] →
      (initiateAction view hR hRot hB s).topControlsEnabled = false
      ∧ (initiateAction view hR hRot hB s).sideControlsEnabled = false
      ∧ (initiateAction view hR hRot hB s).frontControlsEnabled = false) := by
  refine ⟨?_, ?_, ?_, ?_, ?_⟩
  · intro h1
    simp [initiateAction, hsel, h1, ht, hro]
  · intro h1 h2
    cases view <;>
      simp [initiateAction, attachCamera, hsel, h1, h2, ht, hr]
  · intro h1 h2 h3
    simp [initiateAction, hsel, h1, h2, h3, hr, hro]
  · intro h1 h2 h3
    simp [initiateAction, hsel, h1, h2, h3]
  · intro h
    rcases h with h1 | h1 | h1
    · simp [initiateAction, hsel, h1]
    · by_cases h0 : hR = []
      · cases view <;> simp [initiateAction, attachCamera, hsel, h0, h1]
      · simp [initiateAction, hsel, h0]
    · by_cases h0 : hR = []
      · by_cases h2 : hRot = []
        · simp [initiateAction, hsel, h0, h2, h1]
        · cases view <;> simp [initiateAction, attachCamera, hsel, h0, h2]
      · simp [initiateAction, hsel, h0]

theorem initiateAction_witness :
    (initiateAction OrthoView.top [Vec3.zero] [] [] sampleScanState).action.resize.status = true
    ∧ (initiateAction OrthoView.top [Vec3.zero] [] [] sampleScanState).topControlsEnabled = false :=
  ⟨((initiateAction_priority_and_controls OrthoView.top [Vec3.zero] [] []
      sampleScanState sampleCuboid rfl rfl rfl rfl).1 (by simp)).1,
   ((initiateAction_priority_and_controls OrthoView.top [Vec3.zero] [] []
      sampleScanState sampleCuboid rfl rfl rfl rfl).2.2.2.2 (Or.inl (by simp))).1⟩

/-- Claim C7: a ROTATE step with the pointer moved from its initial screen
position applies the fixed angular step pi / ROTATION_SPEED (recorded here
in units of pi) about the view axis — top about Z, side about Y, front
about X — to all four meshes of the selected cuboid, and the same signed
step to that view's camera (about the camera's local z, its viewing axis);
the sign is decided by the isLeft cross-product test against the canvas
centre (left: minus the step; right: plus the step, uniformly in all three
views); with the pointer at its initial position nothing is rotated. -/
theorem rotate_applies_signed_step (view : OrthoView) (canvasCentre : Vec2)
    (s : S3D) (sel : CuboidMeshes) (hsel : s.selected = some sel) :
    (s.action.rotation.screenInit = s.action.rotation.screenMove →
      renderRotateAction view canvasCentre s = s)
    ∧ (s.action.rotation.screenInit ≠ s.action.rotation.screenMove →
      (renderRotateAction view canvasCentre s).selected
          = some (rotateCubeMeshes sel (rotDir canvasCentre s) view)
      ∧ (rotateCubeMeshes sel (rotDir canvasCentre s) view).perspective.rotLog
          = sel.perspective.rotLog ++ [(viewAxis view, rotDir canvasCentre s)]
      ∧ (rotateCubeMeshes sel (rotDir canvasCentre s) view).top.rotLog
          = sel.top.rotLog ++ [(viewAxis view, rotDir canvasCentre s)]
      ∧ (rotateCubeMeshes sel (rotDir canvasCentre s) view).side.rotLog
          = sel.side.rotLog ++ [(viewAxis view, rotDir canvasCentre s)]
      ∧ (rotateCubeMeshes sel (rotDir canvasCentre s) view).front.rotLog
          = sel.front.rotLog ++ [(viewAxis view, rotDir canvasCentre s)]
      ∧ ((renderRotateAction view canvasCentre s).cameraOf view).rotLog
          = (s.cameraOf view).rotLog ++ [(Axis.z, rotDir canvasCentre s)]
      ∧ (isLeft canvasCentre s.action.rotation.screenInit s.action.rotation.screenMove = true
          → rotDir canvasCentre s = -rotationStepPi)
      ∧ (isLeft canvasCentre s.action.rotation.screenInit s.action.rotation.screenMove = false
          → rotDir canvasCentre s = rotationStepPi)) := by
  constructor
  · intro h
    have hx := (vec2_eq_iff _ _).mp h
    simp [renderRotateAction, hx.1, hx.2]
  · intro h
    have hx : ¬ (s.action.rotation.screenInit.x = s.action.rotation.screenMove.x
        ∧ s.action.rotation.screenInit.y = s.action.rotation.screenMove.y) := by
      intro hc
      exact h ((vec2_eq_iff _ _).mpr hc)
    refine ⟨?_, ?_, ?_, ?_, ?_, ?_, ?_, ?_⟩
    · cases view <;>
        simp [renderRotateAction, hx, rotateCube, rotateCamera, rotatePlane,
          rotDir, hsel]
    · simp [rotateCubeMeshes, Mesh.rotateAxis]
    · simp [rotateCubeMeshes, Mesh.rotateAxis]
    · simp [rotateCubeMeshes, Mesh.rotateAxis]
    · simp [rotateCubeMeshes, Mesh.rotateAxis]
    · cases view <;>
        simp [renderRotateAction, hx, rotateCube, rotateCamera, rotatePlane,
          rotDir, hsel, S3D.cameraOf, CameraState.rotateLocalZ]
    · intro hl; simp [rotDir, isLeft] at hl ⊢
      simp [hl]
    · intro hl; simp [rotDir, isLeft] at hl ⊢
      simp [hl]

theorem rotate_witness :
    ((renderRotateAction OrthoView.top ⟨0, 0⟩ rotateMovedState).cameraOf OrthoView.top).rotLog
      = (rotateMovedState.cameraOf OrthoView.top).rotLog
          ++ [(Axis.z, rotDir ⟨0, 0⟩ rotateMovedState)] :=
  ((rotate_applies_signed_step OrthoView.top ⟨0, 0⟩ rotateMovedState sampleCuboid rfl).2
    (by decide)).2.2.2.2.2.1

theorem renderResize_top_scale (ints : List Vec3) (f : Vec3 → Vec3) (s : S3D)
    (sel : CuboidMeshes) (initPos : Vec2)
    (hsel : s.selected = some sel) (hhelp : s.action.resize.helper = some initPos)
    (hne : ints ≠ []) :
    (renderResizeAction OrthoView.top ints f s).selectedTopScale =
      some ⟨ite (s.action.resize.initScales.x * ((s.mouseOf OrthoView.top).x / initPos.x) < 0)
              ((1 : ℚ) / 5)
              (s.action.resize.initScales.x * ((s.mouseOf OrthoView.top).x / initPos.x)),
            ite (s.action.resize.initScales.y * ((s.mouseOf OrthoView.top).y / initPos.y) < 0)
              ((1 : ℚ) / 5)
              (s.action.resize.initScales.y * ((s.mouseOf OrthoView.top).y / initPos.y)),
            sel.top.scale.z⟩ := by
  have hlen : ¬ ints.length = 0 := by simpa [List.length_eq_zero] using hne
  simp [renderResizeAction, hlen, hsel, hhelp, S3D.selectedTopScale,
    moveObject, setSelectedChildScale, CuboidMeshes.setScale,
    adjustPerspectiveCameras]

theorem renderResize_side_scale (ints : List Vec3) (f : Vec3 → Vec3) (s : S3D)
    (sel : CuboidMeshes) (initPos : Vec2)
    (hsel : s.selected = some sel) (hhelp : s.action.resize.helper = some initPos)
    (hne : ints ≠ []) :
    (renderResizeAction OrthoView.side ints f s).selectedTopScale =
      some ⟨ite (s.action.resize.initScales.x * ((s.mouseOf OrthoView.side).x / initPos.x) < 0)
              ((1 : ℚ) / 5)
              (s.action.resize.initScales.x * ((s.mouseOf OrthoView.side).x / initPos.x)),
            sel.top.scale.y,
            ite (s.action.resize.initScales.z * ((s.mouseOf OrthoView.side).y / initPos.y) < 0)
              ((1 : ℚ) / 5)
              (s.action.resize.initScales.z * ((s.mouseOf OrthoView.side).y / initPos.y))⟩ := by
  have hlen : ¬ ints.length = 0 := by simpa [List.length_eq_zero] using hne
  simp [renderResizeAction, hlen, hsel, hhelp, S3D.selectedTopScale,
    moveObject, setSelectedChildScale, CuboidMeshes.setScale,
    adjustPerspectiveCameras]

theorem renderResize_front_scale (ints : List Vec3) (f : Vec3 → Vec3) (s : S3D)
    (sel : CuboidMeshes) (initPos : Vec2)
    (hsel : s.selected = some sel) (hhelp : s.action.resize.helper = some initPos)
    (hne : ints ≠ []) :
    (renderResizeAction OrthoView.front ints f s).selectedTopScale =
      some ⟨sel.top.scale.x,
            ite (s.action.resize.initScales.y * ((s.mouseOf OrthoView.front).x / initPos.x) < 0)
              ((1 : ℚ) / 5)
              (s.action.resize.initScales.y * ((s.mouseOf OrthoView.front).x / initPos.x)),
            ite (s.action.resize.initScales.z * ((s.mouseOf OrthoView.front).y / initPos.y) < 0)
              ((1 : ℚ) / 5)
              (s.action.resize.initScales.z * ((s.mouseOf OrthoView.front).y / initPos.y))⟩ := by
  have hlen : ¬ ints.length = 0 := by simpa [List.length_eq_zero] using hne
  simp [renderResizeAction, hlen, hsel, hhelp, S3D.selectedTopScale,
    moveObject, setSelectedChildScale, CuboidMeshes.setScale,
    adjustPerspectiveCameras]

/-- Claim C1, counterexample: a top-view RESIZE frame whose pointer NDC
x-coordinate is exactly zero (helper snapshot (1/2, 1/2), initial scales
(1, 1, 1)) produces the scale triple (0, 1, 1) — a zero width.  The floor
in the source replaces only strictly negative values, so the claim that a
resize step never yields a zero or negative scale on any axis fails. -/
theorem resize_zero_scale_counterexample :
    (renderResizeAction OrthoView.top [Vec3.zero] id resizeZeroState).selectedTopScale
      = some ⟨0, 1, 1⟩ ∧ ¬ (0 < (0 : ℚ)) := by
  refine ⟨?_, lt_irrefl 0⟩
  rw [renderResize_top_scale [Vec3.zero] id resizeZeroState sampleCuboid
    ⟨1/2, 1/2⟩ rfl rfl (by simp)]
  norm_num [resizeZeroState, sampleCuboid, S3D.mouseOf, Vec3.one]

/-- Claim C1, amended: a RESIZE step in any orthographic view never makes a
scale component strictly negative — strictly negative computed scales are
replaced by the 0.2 floor, the untouched axis keeps its previous
(nonnegative) value — but an exactly-zero scale can result when the
pointer's NDC coordinate is zero, and positive values below the floor pass
through, so nonnegativity (not a positive minimum) is the invariant. -/
theorem resize_scales_never_negative (view : OrthoView) (ints : List Vec3)
    (f : Vec3 → Vec3) (s : S3D) (sel : CuboidMeshes) (initPos : Vec2)
    (hsel : s.selected = some sel) (hhelp : s.action.resize.helper = some initPos)
    (hne : ints ≠ [])
    (hx : 0 ≤ sel.top.scale.x) (hy : 0 ≤ sel.top.scale.y)
    (hz : 0 ≤ sel.top.scale.z) :
    scaleNonneg ((renderResizeAction view ints f s).selectedTopScale) = true := by
  cases view
  · rw [renderResize_top_scale ints f s sel initPos hsel hhelp hne]
    simp only [scaleNonneg, Bool.and_eq_true, decide_eq_true_eq]
    exact ⟨⟨ite_floor_nonneg _, ite_floor_nonneg _⟩, hz⟩
  · rw [renderResize_side_scale ints f s sel initPos hsel hhelp hne]
    simp only [scaleNonneg, Bool.and_eq_true, decide_eq_true_eq]
    exact ⟨⟨ite_floor_nonneg _, hy⟩, ite_floor_nonneg _⟩
  · rw [renderResize_front_scale ints f s sel initPos hsel hhelp hne]
    simp only [scaleNonneg, Bool.and_eq_true, decide_eq_true_eq]
    exact ⟨⟨hx, ite_floor_nonneg _⟩, ite_floor_nonneg _⟩

theorem resize_nonneg_witness :
    scaleNonneg ((renderResizeAction OrthoView.top [Vec3.zero] id
        resizeOutwardState).selectedTopScale) = true :=
  resize_scales_never_negative OrthoView.top [Vec3.zero] id resizeOutwardState
    sampleCuboid ⟨1/2, 1/2⟩ rfl rfl (by simp) (by decide) (by decide) (by decide)

/-- Claim C8: each orthographic view's RESIZE leaves the fixed third scale
axis unchanged — top leaves depth (z), side leaves height (y), front leaves
width (x), the axis given by viewAxis — and a top-view resize from initial
scales (1, 1, 1) with the pointer moved outward on both axes (both current
to initial NDC ratios above 1) yields strictly greater width and height
with depth unchanged. -/
theorem resize_axis_assignment (view : OrthoView) (ints : List Vec3)
    (f : Vec3 → Vec3) (s : S3D) (sel : CuboidMeshes) (initPos : Vec2)
    (hsel : s.selected = some sel) (hhelp : s.action.resize.helper = some initPos)
    (hne : ints ≠ []) :
    Option.map (Vec3.comp (viewAxis view))
        ((renderResizeAction view ints f s).selectedTopScale)
      = some (Vec3.comp (viewAxis view) sel.top.scale)
    ∧ (view = OrthoView.top → s.action.resize.initScales = Vec3.one →
        1 < (s.mouseOf OrthoView.top).x / initPos.x →
        1 < (s.mouseOf OrthoView.top).y / initPos.y →
        scaleGrewXY ((renderResizeAction view ints f s).selectedTopScale)
          sel.top.scale.z = true) := by
  constructor
  · cases view
    · rw [renderResize_top_scale ints f s sel initPos hsel hhelp hne]
      simp [viewAxis, Vec3.comp]
    · rw [renderResize_side_scale ints f s sel initPos hsel hhelp hne]
      simp [viewAxis, Vec3.comp]
    · rw [renderResize_front_scale ints f s sel initPos hsel hhelp hne]
      simp [viewAxis, Vec3.comp]
  · intro hv hinit hgx hgy
    subst hv
    rw [renderResize_top_scale ints f s sel initPos hsel hhelp hne]
    rw [hinit]
    simp only [Vec3.one, one_mul]
    rw [if_neg (by linarith), if_neg (by linarith)]
    simp only [scaleGrewXY, Bool.and_eq_true, decide_eq_true_eq]
    exact ⟨⟨hgx, hgy⟩, trivial⟩

theorem resize_axis_witness :
    scaleGrewXY ((renderResizeAction OrthoView.top [Vec3.zero] id
        resizeOutwardState).selectedTopScale) sampleCuboid.top.scale.z = true :=
  (resize_axis_assignment OrthoView.top [Vec3.zero] id resizeOutwardState
    sampleCuboid ⟨1/2, 1/2⟩ rfl rfl (by simp)).2 rfl rfl
    (by norm_num [resizeOutwardState, S3D.mouseOf])
    (by norm_num [resizeOutwardState, S3D.mouseOf])

/-- Claim C9, counterexample: the drawn event for a freshly created preview
cube carries the point array whose 9th element (1-indexed, so index 8) is
the depth scale — 1 for the default unit scale — and not zero, refuting the
claim that the 9th through 16th elements are all reserved zeros. -/
theorem drawn_ninth_element_counterexample :
    (onDblClick Mode3d.draw freshCuboid).2
      = [CanvasEvent.drawn (drawnPointsOf freshCuboid.perspective),
         CanvasEvent.canceled]
    ∧ (drawnPointsOf freshCuboid.perspective).get? 8 = some 1
    ∧ ¬ ((1 : ℚ) = 0) := by
  refine ⟨rfl, rfl, ?_⟩
  norm_num

/-- Claim C9, amended: every point array emitted by the canvas — the drawn
payload after double-click-to-finish in DRAW mode and the edited payload on
gesture commit — has exactly 16 elements in the fixed order position x3,
rotation x3, scale x3 followed by the reserved slots, and the 10th through
16th elements (the seven reserved slots) are all zero; the 9th element is
the depth scale, not a reserved slot. -/
theorem point_arrays_shape (m : Mesh) (c : CuboidMeshes) (s : S3D)
    (scan : OrthoView) (sel : CuboidMeshes) :
    (drawnPointsOf m).length = 16
    ∧ (editedPointsOf m).length = 16
    ∧ (drawnPointsOf m).take 9
        = [m.position.x, m.position.y, m.position.z,
           m.rotation.x, m.rotation.y, m.rotation.z,
           m.scale.x, m.scale.y, m.scale.z]
    ∧ (editedPointsOf m).take 9
        = [m.position.x, m.position.y, m.position.z,
           m.rotation.x, m.rotation.y, m.rotation.z,
           m.scale.x, m.scale.y, m.scale.z]
    ∧ (drawnPointsOf m).drop 9 = List.replicate 7 0
    ∧ (editedPointsOf m).drop 9 = List.replicate 7 0
    ∧ (onDblClick Mode3d.draw c).2
        = [CanvasEvent.drawn (drawnPointsOf c.perspective), CanvasEvent.canceled]
    ∧ (s.action.detected = true → s.action.scan = some scan →
        s.selected = some sel →
        (resetActions s).2
          = [CanvasEvent.edited
              ((s.objects.filter (fun o => o.clientID = sel.name)).head?)
              (editedPointsOf (sel.view scan))]) := by
  refine ⟨rfl, rfl, rfl, rfl, rfl, rfl, rfl, ?_⟩
  intro h1 h2 h3
  simp [resetActions, h1, h2, h3]

theorem point_arrays_witness :
    (resetActions sampleDetectedState).2
      = [CanvasEvent.edited (some { clientID := 7 })
          (editedPointsOf (sampleCuboid.view OrthoView.top))] := by
  have h := (point_arrays_shape {} {} sampleDetectedState OrthoView.top
    sampleCuboid).2.2.2.2.2.2.2 rfl rfl rfl
  rw [h]
  rfl

end Cvat3d



